import Mathlib

/-!
Shallow embedding of the torndb connection/pool core
(`src/connection.py`, `src/mysqldb.py`, `src/pool.py`).

External driver calls (`pymysql.connect`, `cursor.execute`, ...) are
modelled as explicit outcome parameters threaded into each operation;
Python exceptions become `Except` results paired with the state the
object holds at the moment the exception escapes.
-/

set_option autoImplicit false

namespace Torndb

/-- Python exception values distinguished by the code paths of this repository. -/
inductive PyErr where
  | poolError (msg : String)
  | attributeError (msg : String)
  | valueError (msg : String)
  | operationalError (msg : String)
  | exc (msg : String)
  deriving DecidableEq, Repr

instance {ε α : Type} [DecidableEq ε] [DecidableEq α] :
    DecidableEq (Except ε α) := fun x y =>
  match x, y with
  | .ok a, .ok b =>
    if h : a = b then .isTrue (by rw [h])
    else .isFalse fun hh => h (Except.ok.inj hh)
  | .error a, .error b =>
    if h : a = b then .isTrue (by rw [h])
    else .isFalse fun hh => h (Except.error.inj hh)
  | .ok _, .error _ => .isFalse Except.noConfusion
  | .error _, .ok _ => .isFalse Except.noConfusion

/-- Where the driver is told to connect: `args["unix_socket"]` when the host
string contains a `/`, otherwise `args["host"]`/`args["port"]`
(connection.py lines 41-52). -/
inductive HostTarget where
  | socket (path : String)
  | tcp (host : String) (port : Nat)
  deriving DecidableEq, Repr

/-- The pieces `host.split(":")` yields, as character lists: splitting is on
every `:`, and splitting the empty string yields one empty piece. -/
def splitColon : List Char → List Char → List (List Char)
  | [], acc => [acc.reverse]
  | c :: cs, acc =>
    if c = ':' then acc.reverse :: splitColon cs []
    else splitColon cs (c :: acc)

/-- Python `int(s)` on a plain digit string: `none` models the `ValueError`
raised on a non-numeric port. -/
def digitsToNat : List Char → Nat → Option Nat
  | [], acc => some acc
  | c :: cs, acc =>
    if c.isDigit then digitsToNat cs (acc * 10 + (c.toNat - 48))
    else none

/-- `int(pair[1])` for a port substring. -/
def portToNat (cs : List Char) : Option Nat :=
  match cs with
  | [] => none
  | _ => digitsToNat cs 0

/-- Host-string parsing of `Connection.__init__` (connection.py lines 41-52):
a path containing `/` is a unix socket; `h:p` splits into host and port
(`int(pair[1])` raises `ValueError` on a non-numeric port); anything else is a
host with default port 3306. -/
def parseHost (host : String) : Except PyErr HostTarget :=
  if host.data.contains '/' then
    .ok (.socket host)
  else
    match splitColon host.data [] with
    | [h, p] =>
      match portToNat p with
      | some n => .ok (.tcp (String.mk h) n)
      | none =>
        .error (.valueError
          ("invalid literal for int() with base 10: " ++ String.mk p))
    | _ => .ok (.tcp host 3306)

/-- The keyword arguments accepted by `Connection.__init__`
(connection.py lines 19-22), with the source's defaults. -/
structure ConnCfg where
  host : String
  database : String
  user : Option String := none
  password : Option String := none
  max_idle_time : Nat := 7 * 3600
  connect_timeout : Nat := 5
  time_zone : String := "+0:00"
  charset : String := "utf8"
  sql_mode : String := "TRADITIONAL"
  deriving DecidableEq, Repr

/-- State of a `Connection` wrapper (connection.py): the driver handle `_db`
is `none` exactly when the object is disconnected.  Handles are identified by
a natural number supplied by the environment at connect time.  The remaining
`_db_args` entries (charset, time zone, ...) are pass-throughs to the driver
and are kept in `cfg`. -/
structure Conn where
  host : String
  database : String
  max_idle_time : Nat
  target : HostTarget
  cfg : ConnCfg
  db : Option Nat
  last_use_time : Nat
  deriving DecidableEq, Repr

namespace Conn

/-- `Connection.close` (connection.py lines 75-79): closes the handle if
present and sets `_db = None`; idempotent. -/
def close (c : Conn) : Conn :=
  { c with db := none }

/-- `Connection.reconnect` (connection.py lines 81-85): `close()` then
`pymysql.connect(**self._db_args)` (outcome supplied by `openRes`), then
`autocommit(True)`.  A connect failure escapes as a raised driver error,
leaving the object closed. -/
def reconnect (c : Conn) (openRes : Except String Nat) : Except PyErr Unit × Conn :=
  let c1 := c.close
  match openRes with
  | .ok h => (.ok (), { c1 with db := some h })
  | .error msg => (.error (.operationalError msg), c1)

/-- `Connection.__init__` (connection.py lines 19-60): parse the host string
(errors there propagate), store the args, then `try: self.reconnect()
except Exception: logging.error(...)` — an open failure is swallowed and the
object is left with `_db = None`. -/
def init (cfg : ConnCfg) (now : Nat) (openRes : Except String Nat) : Except PyErr Conn :=
  match parseHost cfg.host with
  | .error e => .error e
  | .ok tgt =>
    let base : Conn :=
      { host := cfg.host, database := cfg.database, max_idle_time := cfg.max_idle_time,
        target := tgt, cfg := cfg, db := none, last_use_time := now }
    match (base.reconnect openRes).1 with
    | .ok _ => .ok { base with db := (base.reconnect openRes).2.db }
    | .error _ => .ok base

/-- `Connection._ensure_connected` (connection.py lines 165-173): reconnect
when the handle is `None` or the connection has been idle longer than
`max_idle_time`; on success update `_last_use_time` to now. -/
def ensure_connected (c : Conn) (now : Nat) (openRes : Except String Nat) :
    Except PyErr Unit × Conn :=
  if c.db = none ∨ c.max_idle_time < now - c.last_use_time then
    match c.reconnect openRes with
    | (.ok _, c1) => (.ok (), { c1 with last_use_time := now })
    | (.error e, c1) => (.error e, c1)
  else
    (.ok (), { c with last_use_time := now })

/-- `Connection._cursor` (connection.py lines 175-177): `_ensure_connected`
then `self._db.cursor()` (an `AttributeError` if the handle is still `None`,
which cannot happen after a successful ensure). -/
def _cursor (c : Conn) (now : Nat) (openRes : Except String Nat) :
    Except PyErr Unit × Conn :=
  match c.ensure_connected now openRes with
  | (.error e, c1) => (.error e, c1)
  | (.ok _, c1) =>
    match c1.db with
    | none => (.error (.attributeError "NoneType object has no attribute cursor"), c1)
    | some _ => (.ok (), c1)

/-- Driver-level errors raised by `cursor.execute`: `pymysql.OperationalError`
is caught specially by `Connection._execute`; every other driver exception
passes through untouched. -/
inductive DrvErr where
  | operational (msg : String)
  | other (msg : String)
  deriving DecidableEq, Repr

/-- What the driver cursor exposes after a successful execute: the column
descriptions, the result rows, `lastrowid` and `rowcount`. -/
structure ExecOut where
  description : List String
  rows : List (List String)
  lastrowid : Nat
  rowcount : Int
  deriving DecidableEq, Repr

/-- `Connection._execute` (connection.py lines 179-185):
`try: cursor.execute(...) except pymysql.OperationalError: log; self.close();
raise` — the operational error is re-raised unchanged after closing the
handle; other driver errors propagate without closing. -/
def _execute (c : Conn) (execRes : Except DrvErr ExecOut) :
    Except PyErr ExecOut × Conn :=
  match execRes with
  | .ok out => (.ok out, c)
  | .error (.operational msg) => (.error (.operationalError msg), c.close)
  | .error (.other msg) => (.error (.exc msg), c)

/-- A result row as built by `Row(zip(column_names, row))`. -/
abbrev RowD := List (String × String)

/-- `Connection.query` (connection.py lines 111-116): open a cursor
(ensuring connectivity), `_execute`, then zip each raw row with the column
names. -/
def query (c : Conn) (now : Nat) (openRes : Except String Nat)
    (execRes : Except DrvErr ExecOut) : Except PyErr (List RowD) × Conn :=
  match c._cursor now openRes with
  | (.error e, c1) => (.error e, c1)
  | (.ok _, c1) =>
    match c1._execute execRes with
    | (.error e, c2) => (.error e, c2)
    | (.ok out, c2) => (.ok (out.rows.map fun r => out.description.zip r), c2)

/-- `Connection.get` (connection.py lines 118-130): run `query`; `None` for no
rows, an `Exception` for more than one row, the single row otherwise. -/
def get (c : Conn) (now : Nat) (openRes : Except String Nat)
    (execRes : Except DrvErr ExecOut) : Except PyErr (Option RowD) × Conn :=
  match c.query now openRes execRes with
  | (.error e, c1) => (.error e, c1)
  | (.ok rows, c1) =>
    match rows with
    | [] => (.ok none, c1)
    | [r] => (.ok (some r), c1)
    | _ :: _ :: _ =>
      (.error (.exc "Multiple rows returned for Database.get() query"), c1)

/-- `Connection.execute_lastrowid` (connection.py lines 138-142); also the
body of `execute` and `insert`. -/
def execute_lastrowid (c : Conn) (now : Nat) (openRes : Except String Nat)
    (execRes : Except DrvErr ExecOut) : Except PyErr Nat × Conn :=
  match c._cursor now openRes with
  | (.error e, c1) => (.error e, c1)
  | (.ok _, c1) =>
    match c1._execute execRes with
    | (.error e, c2) => (.error e, c2)
    | (.ok out, c2) => (.ok out.lastrowid, c2)

/-- `Connection.execute_rowcount` (connection.py lines 144-148); also
`update` and `delete`. -/
def execute_rowcount (c : Conn) (now : Nat) (openRes : Except String Nat)
    (execRes : Except DrvErr ExecOut) : Except PyErr Int × Conn :=
  match c._cursor now openRes with
  | (.error e, c1) => (.error e, c1)
  | (.ok _, c1) =>
    match c1._execute execRes with
    | (.error e, c2) => (.error e, c2)
    | (.ok out, c2) => (.ok out.rowcount, c2)

end Conn

/-! ## The connection pool (`src/pool.py`)

All mutating pool methods run under the single re-entrant
`CONNECTION_POOL_LOCK`, so a single-threaded state-passing model captures
each critical section whole.  `queue.Queue(maxsize)` is a FIFO: `put`
appends at the back, `get` takes from the front, and with `block=False`
both fail immediately instead of waiting. -/

/-- State of a `Pool` (pool.py lines 21-26): fixed target size, the stored
connection kwargs (`none` models the empty dict `{}`), and the FIFO queue of
idle connections (front of the list = front of the queue). -/
structure PoolSt where
  pool_size : Nat
  cnx_config : Option ConnCfg
  queue : List Conn
  deriving DecidableEq, Repr

namespace Pool

/-- `Pool._set_pool_size` (pool.py lines 45-50): sizes outside `1..32` raise
`AttributeError`. -/
def _set_pool_size (size : Int) : Except PyErr Nat :=
  if size ≤ 0 ∨ 32 < size then
    .error (.attributeError
      "Pool size should be higher than 0 and lower or equal to 32")
  else
    .ok size.toNat

/-- `Pool.set_config` (pool.py lines 52-63): empty kwargs return immediately;
otherwise a probe `Connection(**kwargs)` is constructed and, only if that
construction returns, the kwargs are stored.  An `AttributeError` from the
constructor becomes a `PoolError`; any other exception propagates unchanged;
in either raising case the previous config is untouched. -/
def set_config (st : PoolSt) (kwargs : Option ConnCfg) (now : Nat)
    (probeOpen : Except String Nat) : Except PyErr Unit × PoolSt :=
  match kwargs with
  | none => (.ok (), st)
  | some cfg =>
    match Conn.init cfg now probeOpen with
    | .ok _ => (.ok (), { st with cnx_config := some cfg })
    | .error (.attributeError msg) =>
      (.error (.poolError ("Connection configuration not valid: " ++ msg)), st)
    | .error e => (.error e, st)

/-- `Pool._queue_connection` (pool.py lines 65-74): the `isinstance` check
holds for every value of type `Conn` in this embedding; `put(block=False)`
succeeds when the queue is below capacity.  On `queue.Full` the source
evaluates `PoolError("Failed adding connection; queue is full")` but never
raises it, so the method returns normally and the connection is dropped. -/
def _queue_connection (st : PoolSt) (cnx : Conn) : Except PyErr Unit × PoolSt :=
  if st.queue.length < st.pool_size then
    (.ok (), { st with queue := st.queue ++ [cnx] })
  else
    (.ok (), st)

/-- `Pool.add_connection` (pool.py lines 76-92): fail without a stored
config; fail when the queue is already full (`queue.full()` is
`qsize() >= maxsize`); otherwise create a connection from the stored config
when none is supplied (construction errors propagate) and enqueue it. -/
def add_connection (st : PoolSt) (now : Nat) (openRes : Except String Nat)
    (cnx : Option Conn) : Except PyErr Unit × PoolSt :=
  match st.cnx_config with
  | none => (.error (.poolError "Connection configuration not available"), st)
  | some cfg =>
    if st.pool_size ≤ st.queue.length then
      (.error (.poolError "Failed adding connection; queue is full"), st)
    else
      match cnx with
      | none =>
        match Conn.init cfg now openRes with
        | .error e => (.error e, st)
        | .ok c => _queue_connection st c
      | some c => _queue_connection st c

/-- `Pool.get_connection` (pool.py lines 94-103): `get(block=False)` on the
queue; an empty queue raises `PoolError` at once. -/
def get_connection (st : PoolSt) : Except PyErr Conn × PoolSt :=
  match st.queue with
  | [] => (.error (.poolError "Failed getting connection; pool exhausted"), st)
  | c :: rest => (.ok c, { st with queue := rest })

/-- The fill loop of `Pool.__init__` (pool.py lines 30-33): `add_connection`
once per counter value; `fo i` is the driver connect outcome at step `i`.
Any raised error stops the loop and escapes. -/
def fillList : PoolSt → List Nat → Nat → (Nat → Except String Nat) →
    Except PyErr Unit × PoolSt
  | st, [], _, _ => (.ok (), st)
  | st, i :: is, now, fo =>
    match add_connection st now (fo i) none with
    | (.error e, st') => (.error e, st')
    | (.ok _, st') => fillList st' is now fo

/-- `Pool.__init__` (pool.py lines 21-33): validate the size, start with an
empty config and queue; when kwargs are supplied, `set_config` then fill the
pool with `size` connections, letting every failure escape. -/
def init (size : Int) (kwargs : Option ConnCfg) (now : Nat)
    (probeOpen : Except String Nat) (fillOpen : Nat → Except String Nat) :
    Except PyErr PoolSt :=
  match _set_pool_size size with
  | .error e => .error e
  | .ok n =>
    let st0 : PoolSt := { pool_size := n, cnx_config := none, queue := [] }
    match kwargs with
    | none => .ok st0
    | some cfg =>
      match set_config st0 (some cfg) now probeOpen with
      | (.error e, _) => .error e
      | (.ok _, st1) =>
        match fillList st1 (List.range n) now fillOpen with
        | (.error e, _) => .error e
        | (.ok _, st2) => .ok st2

/-- Repeated `get_connection`: the connections handed out by `k` successive
acquisitions, with the final pool state; the first raised error escapes. -/
def getN : PoolSt → Nat → Except PyErr (List Conn) × PoolSt
  | st, 0 => (.ok [], st)
  | st, k + 1 =>
    match get_connection st with
    | (.error e, st') => (.error e, st')
    | (.ok c, st') =>
      match getN st' k with
      | (.error e, st'') => (.error e, st'')
      | (.ok cs, st'') => (.ok (c :: cs), st'')

end Pool

/-! ## The transaction context managers

`Connection.transaction` (connection.py lines 187-198) and the variant in
`mysqldb.py` lines 219-228 are sequences of driver calls around the caller's
block.  A computation is a function from the driver-call trace so far to a
result plus the extended trace; the caller's block is an arbitrary such
computation. -/

/-- A driver call made by a transaction context manager. -/
inductive TxAct where
  | autocommitOff
  | begin
  | commit
  | rollback
  | autocommitOn
  deriving DecidableEq, Repr

/-- A Python computation that appends driver calls to a trace and may raise. -/
def PyTrace (α : Type) : Type :=
  List TxAct → Except PyErr α × List TxAct

namespace PyTrace

def pure {α : Type} (a : α) : PyTrace α := fun l => (.ok a, l)

def bind {α β : Type} (x : PyTrace α) (f : α → PyTrace β) : PyTrace β :=
  fun l =>
    match x l with
    | (.ok a, l') => f a l'
    | (.error e, l') => (.error e, l')

/-- Record one driver call. -/
def act (a : TxAct) : PyTrace Unit := fun l => (.ok (), l ++ [a])

/-- A raised Python exception. -/
def raiseE (e : PyErr) : PyTrace Unit := fun l => (.error e, l)

/-- Python `try: t except: h` with a bare except clause. -/
def tryCatchAll {α : Type} (t : PyTrace α) (h : PyErr → PyTrace α) :
    PyTrace α :=
  fun l =>
    match t l with
    | (.ok a, l') => (.ok a, l')
    | (.error e, l') => h e l'

/-- Python `try: t finally: fin`: the cleanup runs on both paths and its own
exception, if any, replaces the result. -/
def tryFinallyT {α : Type} (t : PyTrace α) (fin : PyTrace Unit) : PyTrace α :=
  fun l =>
    match t l with
    | (.ok a, l') =>
      match fin l' with
      | (.ok _, l'') => (.ok a, l'')
      | (.error e, l'') => (.error e, l'')
    | (.error e, l') =>
      match fin l' with
      | (.ok _, l'') => (.error e, l'')
      | (.error e', l'') => (.error e', l'')

end PyTrace

open PyTrace in
/-- `Connection.transaction` of connection.py (lines 187-198):
`autocommit(False); begin; try: yield; commit except: rollback
finally: autocommit(True)`.  The bare `except:` has no `raise`, so a failure
in the body is caught, rolled back and then suppressed. -/
def transaction_connection (body : PyTrace Unit) : PyTrace Unit :=
  PyTrace.bind (act .autocommitOff) fun _ =>
  PyTrace.bind (act .begin) fun _ =>
  tryFinallyT
    (tryCatchAll (PyTrace.bind body fun _ => act .commit) fun _ =>
      act .rollback)
    (act .autocommitOn)

open PyTrace in
/-- `Connection.transaction` of mysqldb.py (lines 219-228):
`self._db.begin(); try: yield; commit except Exception: rollback; raise` —
the failure is re-raised, and autocommit is never touched. -/
def transaction_mysqldb (body : PyTrace Unit) : PyTrace Unit :=
  PyTrace.bind (act .begin) fun _ =>
  tryCatchAll (PyTrace.bind body fun _ => act .commit) fun e =>
    PyTrace.bind (act .rollback) fun _ => raiseE e

/-! ## Concrete sample values used by witnesses and counterexamples -/

/-- A connection configuration whose host parses to a TCP target. -/
def cfgSample : ConnCfg := { host := "localhost", database := "blog" }

/-- A configuration whose port is not numeric: `int("abc")` raises
`ValueError`, so `Connection.__init__` raises before reaching the driver. -/
def cfgBadPort : ConnCfg := { host := "db:abc", database := "blog" }

/-- A second well-formed configuration, used as replacement input. -/
def cfgNew : ConnCfg := { host := "newhost", database := "newdb" }

/-- The connection `Connection(**cfgSample)` yields when the driver returns
handle 1. -/
def connLive : Conn :=
  { host := "localhost", database := "blog", max_idle_time := 7 * 3600,
    target := .tcp "localhost" 3306, cfg := cfgSample, db := some 1,
    last_use_time := 0 }

/-- A disconnected connection (`_db = None`). -/
def connDown : Conn := { connLive with db := none }

/-- A second, distinct live connection. -/
def connLive2 : Conn := { connLive with db := some 2 }

/-- A pool that already stores a configuration and has an empty queue. -/
def poolWithOldCfg : PoolSt :=
  { pool_size := 5, cnx_config := some ⟨"oldhost", "olddb", none, none,
      7 * 3600, 5, "+0:00", "utf8", "TRADITIONAL"⟩, queue := [] }

/-- A pool at capacity: size 1 with one queued connection. -/
def poolFull : PoolSt :=
  { pool_size := 1, cnx_config := some cfgSample, queue := [connLive] }

/-- A pool whose stored configuration no longer parses, with room left. -/
def poolBadCfg : PoolSt :=
  { pool_size := 2, cnx_config := some cfgBadPort, queue := [] }

/-- A cursor outcome with exactly one result row. -/
def execOneRow : Conn.ExecOut :=
  { description := ["id"], rows := [["7"]], lastrowid := 7, rowcount := 1 }

/-- The connection `Connection(**cfg)` produces when the host parses to
`tgt` and the driver hands back handle `hd` at time `now`. -/
def Conn.made (cfg : ConnCfg) (tgt : HostTarget) (now hd : Nat) : Conn :=
  { host := cfg.host, database := cfg.database,
    max_idle_time := cfg.max_idle_time, target := tgt, cfg := cfg,
    db := some hd, last_use_time := now }

/-! ## Claim theorems -/

/-- C10: `Pool.set_config` called with no keyword arguments returns
immediately: no probe connection is consulted (the same result holds for
every probe outcome), nothing is raised, and the pool state — in particular
the stored configuration, whether empty or not — is unchanged. -/
theorem set_config_empty_kwargs_is_noop (st : PoolSt) (now : Nat)
    (probeOpen : Except String Nat) :
    Pool.set_config st none now probeOpen = (.ok (), st) := rfl

/-- C2: `get_connection` on a pool whose idle queue is empty raises the
pool-exhausted `PoolError` at once and leaves the pool unchanged.  The model
is a total function of the pool state — mirroring the source's
`get(block=False)` — so the failure is immediate and no waiting occurs. -/
theorem get_connection_empty_queue_exhausted (st : PoolSt)
    (h : st.queue = []) :
    Pool.get_connection st =
      (.error (.poolError "Failed getting connection; pool exhausted"), st) := by
  simp [Pool.get_connection, h]

/-- Witness for C2 at a concrete empty pool. -/
theorem get_connection_empty_queue_exhausted_witness :
    Pool.get_connection { pool_size := 5, cnx_config := none, queue := [] } =
      (.error (.poolError "Failed getting connection; pool exhausted"),
        { pool_size := 5, cnx_config := none, queue := [] }) :=
  get_connection_empty_queue_exhausted _ rfl

/-- C8: when the underlying `query` returns normally, `Connection.get`
returns `None` (not an error) for zero rows, the single row for exactly one
row, and raises the multiple-rows `Exception` for more than one row. -/
theorem get_single_row_semantics (c c' : Conn) (now : Nat)
    (openRes : Except String Nat) (execRes : Except Conn.DrvErr Conn.ExecOut)
    (rows : List Conn.RowD)
    (hq : c.query now openRes execRes = (.ok rows, c')) :
    (rows = [] → c.get now openRes execRes = (.ok none, c')) ∧
    (∀ r, rows = [r] → c.get now openRes execRes = (.ok (some r), c')) ∧
    (2 ≤ rows.length →
      c.get now openRes execRes =
        (.error (.exc "Multiple rows returned for Database.get() query"), c')) := by
  refine ⟨?_, ?_, ?_⟩
  · intro h
    subst h
    simp [Conn.get, hq]
  · intro r h
    subst h
    simp [Conn.get, hq]
  · intro h
    match rows, h with
    | r1 :: r2 :: rest, _ => simp [Conn.get, hq]

/-- Witness for C8: a live connection and a one-row result set. -/
theorem get_single_row_semantics_witness :
    connLive.get 0 (.ok 1) (.ok execOneRow) = (.ok (some [("id", "7")]), connLive) :=
  (get_single_row_semantics connLive connLive 0 (.ok 1) (.ok execOneRow)
    [[("id", "7")]] rfl).2.1 [("id", "7")] rfl

/-- C9: a driver `OperationalError` raised inside `cursor.execute` makes
`_execute` close the handle (`_db = None`, so the next use reconnects) and
re-raise the very same error; each execute-style operation surfaces that
error with the closed state, and the driver is consulted exactly once — the
result is final, with no retry of the statement. -/
theorem operational_error_closes_and_reraises (c : Conn) (now : Nat)
    (openRes : Except String Nat) (msg : String) (c1 : Conn)
    (hcur : c._cursor now openRes = (.ok (), c1)) :
    c1._execute (.error (.operational msg)) =
      (.error (.operationalError msg), c1.close) ∧
    (c1.close).db = none ∧
    c.query now openRes (.error (.operational msg)) =
      (.error (.operationalError msg), c1.close) ∧
    c.execute_lastrowid now openRes (.error (.operational msg)) =
      (.error (.operationalError msg), c1.close) ∧
    c.execute_rowcount now openRes (.error (.operational msg)) =
      (.error (.operationalError msg), c1.close) := by
  refine ⟨rfl, rfl, ?_, ?_, ?_⟩ <;>
    simp [Conn.query, Conn.execute_lastrowid, Conn.execute_rowcount, hcur,
      Conn._execute]

/-- Witness for C9 on a live connection whose execute hits an operational
error. -/
theorem operational_error_closes_and_reraises_witness :
    connLive._execute (.error (.operational "gone away")) =
      (.error (.operationalError "gone away"), connLive.close) ∧
    (connLive.close).db = none ∧
    connLive.query 0 (.ok 1) (.error (.operational "gone away")) =
      (.error (.operationalError "gone away"), connLive.close) ∧
    connLive.execute_lastrowid 0 (.ok 1) (.error (.operational "gone away")) =
      (.error (.operationalError "gone away"), connLive.close) ∧
    connLive.execute_rowcount 0 (.ok 1) (.error (.operational "gone away")) =
      (.error (.operationalError "gone away"), connLive.close) :=
  operational_error_closes_and_reraises connLive 0 (.ok 1) "gone away"
    connLive rfl

/-- C7: when the handle is `None` or the connection has sat idle longer than
`max_idle_time`, the next public operation first runs `_ensure_connected`,
which reconnects without raising (given the driver accepts the connect) and
stamps `_last_use_time` with the current time; the operation itself then
succeeds against the fresh handle. -/
theorem idle_or_null_reconnects_transparently (c : Conn) (now hdl : Nat)
    (out : Conn.ExecOut)
    (hstale : c.db = none ∨ c.max_idle_time < now - c.last_use_time) :
    c.ensure_connected now (.ok hdl) =
      (.ok (), { c with db := some hdl, last_use_time := now }) ∧
    c.query now (.ok hdl) (.ok out) =
      (.ok (out.rows.map fun r => out.description.zip r),
        { c with db := some hdl, last_use_time := now }) ∧
    c.execute_lastrowid now (.ok hdl) (.ok out) =
      (.ok out.lastrowid, { c with db := some hdl, last_use_time := now }) ∧
    c.execute_rowcount now (.ok hdl) (.ok out) =
      (.ok out.rowcount, { c with db := some hdl, last_use_time := now }) := by
  have he : c.ensure_connected now (.ok hdl) =
      (.ok (), { c with db := some hdl, last_use_time := now }) := by
    unfold Conn.ensure_connected
    rw [if_pos hstale]
    rfl
  refine ⟨he, ?_, ?_, ?_⟩ <;>
    simp [Conn.query, Conn.execute_lastrowid, Conn.execute_rowcount,
      Conn._cursor, he, Conn._execute]

/-- Witness for C7: a disconnected connection, reconnecting to handle 9 at
time 5 and running a one-row query. -/
theorem idle_or_null_reconnects_transparently_witness :
    connDown.ensure_connected 5 (.ok 9) =
      (.ok (), { connDown with db := some 9, last_use_time := 5 }) ∧
    connDown.query 5 (.ok 9) (.ok execOneRow) =
      (.ok (execOneRow.rows.map fun r => execOneRow.description.zip r),
        { connDown with db := some 9, last_use_time := 5 }) ∧
    connDown.execute_lastrowid 5 (.ok 9) (.ok execOneRow) =
      (.ok execOneRow.lastrowid, { connDown with db := some 9, last_use_time := 5 }) ∧
    connDown.execute_rowcount 5 (.ok 9) (.ok execOneRow) =
      (.ok execOneRow.rowcount, { connDown with db := some 9, last_use_time := 5 }) :=
  idle_or_null_reconnects_transparently connDown 5 9 execOneRow (Or.inl rfl)

/-- C4 counterexample: with a body that raises, connection.py's
`transaction()` rolls back and restores autocommit but returns normally —
the failure is not re-raised to the caller, contradicting the claim. -/
theorem transaction_body_failure_suppressed :
    transaction_connection (PyTrace.raiseE (.exc "boom")) [] =
      (.ok (), [.autocommitOff, .begin, .rollback, .autocommitOn]) ∧
    (transaction_connection (PyTrace.raiseE (.exc "boom")) []).1 ≠
      .error (.exc "boom") := by
  refine ⟨rfl, fun h => ?_⟩
  rw [show (transaction_connection (PyTrace.raiseE (.exc "boom")) []).1 =
      Except.ok () from rfl] at h
  exact Except.noConfusion h

/-- C4 amended: on normal completion of the body, connection.py's
`transaction()` commits and restores autocommit; on a raised failure it
rolls back and restores autocommit but suppresses the exception (the bare
`except:` has no `raise`).  mysqldb.py's variant commits on completion and
on a failure rolls back and re-raises, but never disables or restores
autocommit. -/
theorem transaction_amended (body : PyTrace Unit) (l l' : List TxAct) :
    (∀ u, body (l ++ [.autocommitOff, .begin]) = (.ok u, l') →
        transaction_connection body l =
          (.ok (), l' ++ [.commit, .autocommitOn])) ∧
    (∀ e, body (l ++ [.autocommitOff, .begin]) = (.error e, l') →
        transaction_connection body l =
          (.ok (), l' ++ [.rollback, .autocommitOn])) ∧
    (∀ u, body (l ++ [.begin]) = (.ok u, l') →
        transaction_mysqldb body l = (.ok (), l' ++ [.commit])) ∧
    (∀ e, body (l ++ [.begin]) = (.error e, l') →
        transaction_mysqldb body l = (.error e, l' ++ [.rollback])) := by
  refine ⟨fun u h => ?_, fun e h => ?_, fun u h => ?_, fun e h => ?_⟩ <;>
    simp [transaction_connection, transaction_mysqldb, PyTrace.bind,
      PyTrace.act, PyTrace.raiseE, PyTrace.tryCatchAll, PyTrace.tryFinallyT,
      List.append_assoc, h]

/-- Witness for C4's amended statement with a raising body. -/
theorem transaction_amended_witness :
    transaction_connection (PyTrace.raiseE (.exc "x")) [] =
      (.ok (), [.autocommitOff, .begin] ++ [.rollback, .autocommitOn]) ∧
    transaction_mysqldb (PyTrace.raiseE (.exc "x")) [] =
      (.error (.exc "x"), [.begin] ++ [.rollback]) :=
  ⟨(transaction_amended (PyTrace.raiseE (.exc "x")) []
      [.autocommitOff, .begin]).2.1 (.exc "x") rfl,
   (transaction_amended (PyTrace.raiseE (.exc "x")) []
      [.begin]).2.2.2 (.exc "x") rfl⟩

/-- C3 counterexample: the probe `Connection(**kwargs)` swallows its open
failure (connection.py lines 57-60), so `set_config` with parameters whose
connection cannot be opened raises nothing and REPLACES the previously
stored configuration. -/
theorem set_config_open_failure_replaces_config :
    Pool.set_config poolWithOldCfg (some cfgNew) 0 (.error "Connection refused") =
      (.ok (), { poolWithOldCfg with cnx_config := some cfgNew }) ∧
    ({ poolWithOldCfg with cnx_config := some cfgNew }).cnx_config ≠
      poolWithOldCfg.cnx_config := by
  exact ⟨by decide, by decide⟩

/-- C3 amended: `set_config` stores the new kwargs whenever the probe
constructor returns — which it does even when opening the connection fails,
since `Connection.__init__` logs and swallows that failure.  Only an
exception raised by the probe constructor itself (e.g. a `ValueError` from a
malformed port; an `AttributeError` would become a `PoolError`) makes
`set_config` raise, and in that raising case the previous configuration is
left unchanged. -/
theorem set_config_amended (st : PoolSt) (cfg : ConnCfg) (now : Nat)
    (probeOpen : Except String Nat) :
    (∀ c, Conn.init cfg now probeOpen = .ok c →
        Pool.set_config st (some cfg) now probeOpen =
          (.ok (), { st with cnx_config := some cfg })) ∧
    (∀ msg tgt, parseHost cfg.host = .ok tgt →
        Pool.set_config st (some cfg) now (.error msg) =
          (.ok (), { st with cnx_config := some cfg })) ∧
    (∀ e, Conn.init cfg now probeOpen = .error e →
        (Pool.set_config st (some cfg) now probeOpen).2 = st ∧
        ∃ msg, (Pool.set_config st (some cfg) now probeOpen).1 =
          .error (.poolError ("Connection configuration not valid: " ++ msg)) ∨
          (Pool.set_config st (some cfg) now probeOpen).1 = .error e) := by
  refine ⟨fun c h => ?_, fun msg tgt h => ?_, fun e h => ?_⟩
  · simp [Pool.set_config, h]
  · have hinit : Conn.init cfg now (.error msg) =
        .ok { host := cfg.host, database := cfg.database,
              max_idle_time := cfg.max_idle_time, target := tgt, cfg := cfg,
              db := none, last_use_time := now } := by
      simp [Conn.init, h, Conn.reconnect, Conn.close]
    simp [Pool.set_config, hinit]
  · have h2 : (Pool.set_config st (some cfg) now probeOpen).2 = st := by
      cases e <;> simp [Pool.set_config, h]
    refine ⟨h2, ?_⟩
    cases e with
    | poolError m => exact ⟨"", Or.inr (by simp [Pool.set_config, h])⟩
    | attributeError m => exact ⟨m, Or.inl (by simp [Pool.set_config, h])⟩
    | valueError m => exact ⟨"", Or.inr (by simp [Pool.set_config, h])⟩
    | operationalError m => exact ⟨"", Or.inr (by simp [Pool.set_config, h])⟩
    | exc m => exact ⟨"", Or.inr (by simp [Pool.set_config, h])⟩

/-- Witness for C3's amended statement: an open-failing probe replaces the
configuration; a probe whose constructor raises (bad port) leaves it
unchanged and surfaces an error. -/
theorem set_config_amended_witness :
    Pool.set_config poolWithOldCfg (some cfgNew) 0 (.error "refused") =
      (.ok (), { poolWithOldCfg with cnx_config := some cfgNew }) ∧
    (Pool.set_config poolWithOldCfg (some cfgBadPort) 0 (.ok 1)).2 =
      poolWithOldCfg := by
  refine ⟨(set_config_amended poolWithOldCfg cfgNew 0 (.error "refused")).2.1
      "refused" (.tcp "newhost" 3306) (by decide), ?_⟩
  exact ((set_config_amended poolWithOldCfg cfgBadPort 0 (.ok 1)).2.2
    (.valueError "invalid literal for int() with base 10: abc") (by decide)).1

/-- C5: `add_connection` on a full pool does raise the full-pool `PoolError`
at its pre-check, but the claimed defensive double-check does not exist in
effect: on `queue.Full`, `_queue_connection` merely evaluates
`PoolError("Failed adding connection; queue is full")` without raising it
(pool.py lines 71-74), returning normally and silently dropping the
connection.  This theorem evaluates the code at the failing input. -/
theorem queue_full_double_check_silently_drops :
    (Pool.add_connection poolFull 0 (.ok 3) none).1 =
      .error (.poolError "Failed adding connection; queue is full") ∧
    Pool._queue_connection poolFull connLive2 = (.ok (), poolFull) := by
  exact ⟨rfl, rfl⟩

/-- C6: every raised failure while creating one of the `size` fill
connections escapes to the caller of the `Pool` constructor — (b)
`add_connection` propagates a construction error unchanged, (c) the fill
loop stops at the first error and propagates it, (d) `Pool.__init__`
returns exactly what the fill loop produced — whereas (a) bare `Connection`
construction never raises on an open failure and instead leaves the handle
`None`. -/
theorem fill_failure_propagates :
    (∀ (cfg : ConnCfg) (now : Nat) (msg : String) (tgt : HostTarget),
        parseHost cfg.host = .ok tgt →
        Conn.init cfg now (.error msg) =
          .ok { host := cfg.host, database := cfg.database,
                max_idle_time := cfg.max_idle_time, target := tgt, cfg := cfg,
                db := none, last_use_time := now }) ∧
    (∀ (st : PoolSt) (cfg : ConnCfg) (now : Nat)
        (openRes : Except String Nat) (e : PyErr),
        st.cnx_config = some cfg →
        st.queue.length < st.pool_size →
        Conn.init cfg now openRes = .error e →
        Pool.add_connection st now openRes none = (.error e, st)) ∧
    (∀ (st st' : PoolSt) (i : Nat) (is : List Nat) (now : Nat)
        (fo : Nat → Except String Nat) (e : PyErr),
        Pool.add_connection st now (fo i) none = (.error e, st') →
        Pool.fillList st (i :: is) now fo = (.error e, st')) ∧
    (∀ (size : Int) (n : Nat) (cfg : ConnCfg) (now : Nat)
        (po : Except String Nat) (fo : Nat → Except String Nat) (st1 : PoolSt),
        Pool._set_pool_size size = .ok n →
        Pool.set_config { pool_size := n, cnx_config := none, queue := [] }
            (some cfg) now po = (.ok (), st1) →
        Pool.init size (some cfg) now po fo =
          (match Pool.fillList st1 (List.range n) now fo with
           | (.ok _, st2) => .ok st2
           | (.error e, _) => .error e)) := by
  refine ⟨fun cfg now msg tgt hparse => ?_,
    fun st cfg now openRes e hcfg hlt hinit => ?_,
    fun st st' i is now fo e hadd => ?_,
    fun size n cfg now po fo st1 hsz hsc => ?_⟩
  · simp [Conn.init, hparse, Conn.reconnect, Conn.close]
  · simp [Pool.add_connection, hcfg, hinit, not_le_of_lt hlt]
  · simp [Pool.fillList, hadd]
  · simp [Pool.init, hsz, hsc]
    rcases Pool.fillList st1 (List.range n) now fo with ⟨r, st2⟩
    cases r <;> rfl

/-- Witness for C6: an open failure is swallowed at construction; a bad-port
configuration makes `add_connection` and the fill loop raise `ValueError`;
and `Pool.__init__` hands back the fill loop's outcome. -/
theorem fill_failure_propagates_witness :
    Conn.init cfgSample 0 (.error "down") =
      .ok { host := cfgSample.host, database := cfgSample.database,
            max_idle_time := cfgSample.max_idle_time,
            target := .tcp "localhost" 3306, cfg := cfgSample, db := none,
            last_use_time := 0 } ∧
    Pool.add_connection poolBadCfg 0 (.ok 1) none =
      (.error (.valueError "invalid literal for int() with base 10: abc"),
        poolBadCfg) ∧
    Pool.fillList poolBadCfg [0, 1] 0 (fun _ => .ok 1) =
      (.error (.valueError "invalid literal for int() with base 10: abc"),
        poolBadCfg) ∧
    Pool.init 2 (some cfgSample) 0 (.ok 1) (fun _ => .ok 1) =
      (match Pool.fillList
          { pool_size := 2, cnx_config := some cfgSample, queue := [] }
          (List.range 2) 0 (fun _ => .ok 1) with
       | (.ok _, st2) => .ok st2
       | (.error e, _) => .error e) := by
  refine ⟨fill_failure_propagates.1 cfgSample 0 "down" (.tcp "localhost" 3306)
      (by decide),
    fill_failure_propagates.2.1 poolBadCfg cfgBadPort 0 (.ok 1) _ rfl
      (by decide) (by decide),
    fill_failure_propagates.2.2.1 poolBadCfg poolBadCfg 0 [1] 0
      (fun _ => .ok 1) _ ?_,
    fill_failure_propagates.2.2.2 2 2 cfgSample 0 (.ok 1) (fun _ => .ok 1)
      { pool_size := 2, cnx_config := some cfgSample, queue := [] }
      (by decide) (by decide)⟩
  exact fill_failure_propagates.2.1 poolBadCfg cfgBadPort 0 (.ok 1) _ rfl
    (by decide) (by decide)

/-- `Connection(**cfg)` with a parseable host and a successful driver connect
returns the freshly connected wrapper. -/
theorem conn_init_ok (cfg : ConnCfg) (tgt : HostTarget) (now hd : Nat)
    (hparse : parseHost cfg.host = .ok tgt) :
    Conn.init cfg now (.ok hd) = .ok (Conn.made cfg tgt now hd) := by
  simp [Conn.init, hparse, Conn.reconnect, Conn.close, Conn.made]

/-- The fill loop, run with a stored parseable config, enough capacity and
an always-successful driver, appends one fresh connection per step. -/
theorem fillList_all_ok (cfg : ConnCfg) (tgt : HostTarget) (now : Nat)
    (fo : Nat → Except String Nat) (hf : Nat → Nat)
    (hparse : parseHost cfg.host = .ok tgt) :
    ∀ (is : List Nat) (st : PoolSt), st.cnx_config = some cfg →
      st.queue.length + is.length ≤ st.pool_size →
      (∀ i ∈ is, fo i = .ok (hf i)) →
      Pool.fillList st is now fo =
        (.ok (), { st with
          queue := st.queue ++ is.map fun i => Conn.made cfg tgt now (hf i) }) := by
  intro is
  induction is with
  | nil =>
    intro st _ _ _
    simp [Pool.fillList]
  | cons i is ih =>
    intro st hcfg hlen hok
    have hfoi : fo i = .ok (hf i) := hok i (List.mem_cons_self i is)
    have hlt : st.queue.length < st.pool_size := by
      simp only [List.length_cons] at hlen
      omega
    have hadd : Pool.add_connection st now (fo i) none =
        (.ok (), { st with
          queue := st.queue ++ [Conn.made cfg tgt now (hf i)] }) := by
      simp [Pool.add_connection, hcfg, not_le_of_lt hlt, hfoi,
        conn_init_ok cfg tgt now (hf i) hparse, Pool._queue_connection, hlt]
    have hlen' :
        (st.queue ++ [Conn.made cfg tgt now (hf i)]).length + is.length ≤
          st.pool_size := by
      simp only [List.length_append, List.length_cons, List.length_nil,
        List.length_cons] at *
      omega
    have := ih { st with
        queue := st.queue ++ [Conn.made cfg tgt now (hf i)] } hcfg hlen'
      (fun j hj => hok j (List.mem_cons_of_mem _ hj))
    simp only [Pool.fillList, hadd, this]
    simp

/-- Draining a pool of `k` queued connections by `k` `get_connection` calls
returns them front-to-back and empties the queue. -/
theorem getN_drains (q : List Conn) :
    ∀ st : PoolSt, st.queue = q →
      Pool.getN st q.length = (.ok q, { st with queue := [] }) := by
  induction q with
  | nil =>
    intro st h
    have hst : { st with queue := ([] : List Conn) } = st := by rw [← h]
    simp [Pool.getN, hst]
  | cons c rest ih =>
    intro st h
    have hget : Pool.get_connection st = (.ok c, { st with queue := rest }) := by
      simp [Pool.get_connection, h]
    simp [Pool.getN, hget, ih { st with queue := rest } rfl]

/-- C1: for every valid pool size `1 ≤ n ≤ 32`, constructing a `Pool` with a
working connection configuration fills it synchronously with `n`
connections; `n` successive `get_connection` calls then succeed, returning
pairwise-distinct connections, and the `(n+1)`-th call raises the
pool-exhausted `PoolError`. -/
theorem pool_fill_then_exhaustion (n : Nat) (cfg : ConnCfg) (tgt : HostTarget)
    (now hp : Nat) (hf : Nat → Nat)
    (h1 : 1 ≤ n) (h2 : n ≤ 32) (hparse : parseHost cfg.host = .ok tgt)
    (hinj : ∀ i < n, ∀ j < n, hf i = hf j → i = j) :
    ∃ st : PoolSt,
      Pool.init (n : Int) (some cfg) now (.ok hp) (fun i => .ok (hf i)) =
        .ok st ∧
      st.queue.length = n ∧
      ∃ cs st', Pool.getN st n = (.ok cs, st') ∧ cs.length = n ∧ cs.Nodup ∧
        (Pool.get_connection st').1 =
          .error (.poolError "Failed getting connection; pool exhausted") := by
  have hq : ((List.range n).map fun i => Conn.made cfg tgt now (hf i)).length = n := by
    simp
  have hsz : Pool._set_pool_size (n : Int) = .ok n := by
    unfold Pool._set_pool_size
    rw [if_neg (by push_neg; omega)]
    congr 1
  have hsc : Pool.set_config { pool_size := n, cnx_config := none, queue := [] }
      (some cfg) now (.ok hp) =
      (.ok (), { pool_size := n, cnx_config := some cfg, queue := [] }) := by
    simp [Pool.set_config, conn_init_ok cfg tgt now hp hparse]
  have hfill := fillList_all_ok cfg tgt now (fun i => .ok (hf i)) hf hparse
    (List.range n) { pool_size := n, cnx_config := some cfg, queue := [] }
    rfl (by simp) (fun i _ => rfl)
  have hinit : Pool.init (n : Int) (some cfg) now (.ok hp)
      (fun i => .ok (hf i)) =
      .ok { pool_size := n, cnx_config := some cfg,
            queue := (List.range n).map fun i => Conn.made cfg tgt now (hf i) } := by
    simp only [Pool.init, hsz, hsc, hfill]
    simp
  have hnd : ((List.range n).map fun i => Conn.made cfg tgt now (hf i)).Nodup := by
    refine List.Nodup.map_on ?_ (List.nodup_range n)
    intro x hx y hy hmade
    have hdb : hf x = hf y := by
      have := congrArg Conn.db hmade
      simpa [Conn.made] using this
    exact hinj x (List.mem_range.mp hx) y (List.mem_range.mp hy) hdb
  have hdrain := getN_drains
    ((List.range n).map fun i => Conn.made cfg tgt now (hf i))
    { pool_size := n, cnx_config := some cfg,
      queue := (List.range n).map fun i => Conn.made cfg tgt now (hf i) } rfl
  rw [hq] at hdrain
  exact ⟨_, hinit, hq, _, _, hdrain, hq, hnd, rfl⟩

/-- Witness for C1 at pool size 2 with distinct driver handles. -/
theorem pool_fill_then_exhaustion_witness :
    ∃ st : PoolSt,
      Pool.init ((2 : Nat) : Int) (some cfgSample) 0 (.ok 100)
        (fun i => .ok (id i)) = .ok st ∧
      st.queue.length = 2 ∧
      ∃ cs st', Pool.getN st 2 = (.ok cs, st') ∧ cs.length = 2 ∧ cs.Nodup ∧
        (Pool.get_connection st').1 =
          .error (.poolError "Failed getting connection; pool exhausted") :=
  pool_fill_then_exhaustion 2 cfgSample (.tcp "localhost" 3306) 0 100 id
    (by decide) (by decide) (by decide) (fun i _ j _ h => h)

end Torndb
